import Mathlib

/-!
Verification of the Run orchestration state machine and the training sweep
of the UAM backend (birendra72/UAM_project_v1.0), as a shallow embedding.

The embedding follows the Python sources:
  app/db/models.py                (Run row shape)
  app/workers/tasks.py            (preprocess_data, run_eda, train_models,
                                   finalize_run, log_message)
  app/routers/analysis.py         (run_eda_sync, start_eda, ConnectionManager,
                                   train_models_with_progress)
  app/services/ml_service.py      (MLService.train_auto_ml, _train_models)
  Desktop/webProject/Web_UAM_v1.0/app/routers/runs.py (start_run)

External collaborators (object store, dataset materializer, the sklearn
fitting library) are abstracted as environment parameters: each stage body
either succeeds or raises, and each model-family fit either returns a
metric set or raises, exactly at the try/except boundaries of the source.
Timestamps are abstract (Option Unit): the code only ever sets them to now.
Floats are modelled as rationals: each float literal of the source is
mapped to the decimal rational it denotes (0.25 to 1/4, 0.1 to 1/10, ...).
Every property proved here depends only on equalities and the relative
order of these constants, and that order is the same for the floats.
-/

namespace UAM

/-- Run.status values (app/db/models.py line 98). -/
inductive Status where
  | PENDING
  | RUNNING
  | COMPLETED
  | FAILED
deriving DecidableEq, Repr

/-- A Run row is terminal when it is COMPLETED or FAILED. -/
def Status.isTerminal : Status → Bool
  | .COMPLETED => true
  | .FAILED => true
  | _ => false

/-- The mutable columns of one Run row (app/db/models.py lines 92-103).
Timestamps are abstract: the source only writes func.now into them. -/
structure RunRow where
  status : Status
  current_task : Option String
  progress : ℚ
  started_at : Option Unit
  finished_at : Option Unit
deriving DecidableEq, Repr

/-- Database state seen by one worker task: the Run row it owns plus the
Log rows written for that run (level, message). -/
structure Db where
  run : RunRow
  logs : List (String × String)
deriving DecidableEq, Repr

/-- Apply a run-row mutation and commit (db.commit after field writes). -/
def commitRun (f : RunRow → RunRow) (db : Db) : Db :=
  { db with run := f db.run }

/-- log_message (app/workers/tasks.py lines 68-71): add a Log row, commit. -/
def log_message (level message : String) (db : Db) : Db :=
  { db with logs := db.logs ++ [(level, message)] }

/-- The Run row as created by the submission endpoint
(Desktop/.../routers/runs.py lines 61-68): PENDING, progress 0.0,
timestamps unset. -/
def initialRun : RunRow :=
  { status := .PENDING, current_task := none, progress := 0,
    started_at := none, finished_at := none }

def initialDb : Db := { run := initialRun, logs := [] }

/-- preprocess_data (app/workers/tasks.py lines 73-121).
Returns the committed snapshots in order, plus whether the task body
succeeded.  `ok` abstracts the fallible body (storage I/O, pandas);
commits that only add Artifact rows do not touch the Run row and are
omitted.  On failure the except block logs an ERROR and commits FAILED. -/
def preprocess_data (ok : Bool) (db : Db) : List Db × Bool :=
  let d1 := commitRun (fun r => { r with status := .RUNNING, current_task := some "Preprocessing" }) db
  if ok then
    let d2 := commitRun (fun r => { r with progress := mkRat 1 4 }) d1
    let d3 := log_message "INFO" "Preprocessing completed successfully." d2
    ([d1, d2, d3], true)
  else
    let d2 := log_message "ERROR" "Preprocessing failed" d1
    let d3 := commitRun (fun r => { r with status := .FAILED }) d2
    ([d1, d2, d3], false)

/-- run_eda (app/workers/tasks.py lines 123-206).  The success path sets
progress 1.0, COMPLETED and clears current_task in a single commit
(lines 193-196). -/
def run_eda (ok : Bool) (db : Db) : List Db × Bool :=
  let d1 := commitRun (fun r => { r with status := .RUNNING, current_task := some "EDA" }) db
  if ok then
    let d2 := commitRun (fun r =>
      { r with progress := 1, status := .COMPLETED, current_task := none }) d1
    let d3 := log_message "INFO" "EDA completed successfully." d2
    ([d1, d2, d3], true)
  else
    let d2 := log_message "ERROR" "EDA failed" d1
    let d3 := commitRun (fun r => { r with status := .FAILED }) d2
    ([d1, d2, d3], false)

/-- train_models (app/workers/tasks.py lines 208-266).  Note: it writes
current_task without touching status, and on success commits progress
0.75 (lines 255-256). -/
def train_models (ok : Bool) (db : Db) : List Db × Bool :=
  let d1 := commitRun (fun r => { r with current_task := some "Training" }) db
  if ok then
    let d2 := commitRun (fun r => { r with progress := mkRat 3 4 }) d1
    let d3 := log_message "INFO" "Model training completed successfully." d2
    ([d1, d2, d3], true)
  else
    let d2 := log_message "ERROR" "Training failed" d1
    let d3 := commitRun (fun r => { r with status := .FAILED }) d2
    ([d1, d2, d3], false)

/-- finalize_run (app/workers/tasks.py lines 268-314).  The success commit
(lines 301-304) sets COMPLETED, progress 1.0 and clears current_task;
it never writes finished_at. -/
def finalize_run (ok : Bool) (db : Db) : List Db × Bool :=
  let d1 := commitRun (fun r => { r with current_task := some "Finalizing" }) db
  if ok then
    let d2 := commitRun (fun r =>
      { r with status := .COMPLETED, progress := 1, current_task := none }) d1
    let d3 := log_message "INFO" "Run finalized successfully." d2
    ([d1, d2, d3], true)
  else
    let d2 := log_message "ERROR" "Finalization failed" d1
    let d3 := commitRun (fun r => { r with status := .FAILED }) d2
    ([d1, d2, d3], false)

/-- Last committed state of a stage trace (the next stage reads it). -/
def lastState (t : List Db) : Db := t.getLast?.getD initialDb

/-- The Celery chain enqueued by start_run
(Desktop/.../routers/runs.py lines 74-80):
preprocess_data | run_eda | train_models | finalize_run.
A raised exception in one task stops the chain: later tasks never run.
The head of the trace is the row as committed by start_run itself. -/
def chainTrace (o1 o2 o3 o4 : Bool) : List Db :=
  let t1 := preprocess_data o1 initialDb
  if t1.2 then
    let t2 := run_eda o2 (lastState t1.1)
    if t2.2 then
      let t3 := train_models o3 (lastState t2.1)
      if t3.2 then
        let t4 := finalize_run o4 (lastState t3.1)
        initialDb :: (t1.1 ++ t2.1 ++ t3.1 ++ t4.1)
      else initialDb :: (t1.1 ++ t2.1 ++ t3.1)
    else initialDb :: (t1.1 ++ t2.1)
  else initialDb :: t1.1

/-- The committed snapshots of run_eda_sync (app/routers/analysis.py
lines 33-129), in source order.  Commits that only add Artifact rows are
omitted; `steps` counts how many of these commits complete before the
body raises (6 or more means full success; the except block only sets
FAILED, it writes no Log row). -/
def edaSyncCommits : List (RunRow → RunRow) :=
  [ fun r => { r with status := .RUNNING, current_task := some "EDA", progress := mkRat 1 10 },
    fun r => { r with progress := mkRat 1 5, current_task := some "Loading dataset" },
    fun r => { r with progress := mkRat 2 5, current_task := some "Analyzing data structure" },
    fun r => { r with progress := mkRat 3 5, current_task := some "Generating summary statistics" },
    fun r => { r with progress := mkRat 4 5, current_task := some "Generating visualizations" },
    fun r => { r with progress := 1, status := .COMPLETED, current_task := none } ]

def applyCommits : List (RunRow → RunRow) → Db → List Db
  | [], _ => []
  | f :: fs, db =>
    let d := commitRun f db
    d :: applyCommits fs d

/-- Trace of run_eda_sync when the body raises after `steps` run-row
commits (steps ≥ 6: success). -/
def edaSyncTrace (steps : ℕ) : List Db :=
  let done := applyCommits (edaSyncCommits.take steps) initialDb
  if steps < 6 then
    let d := lastState (initialDb :: done)
    initialDb :: done ++ [commitRun (fun r => { r with status := .FAILED }) d]
  else
    initialDb :: done

/-- Longest prefix of a trace in which the write was performed before the
run had reached a terminal state: every state up to and including the
first terminal one. -/
def untilTerminal : List Db → List Db
  | [] => []
  | d :: rest =>
    if d.run.status.isTerminal then [d] else d :: untilTerminal rest

/-! ## Training sweep (MLService._train_models, app/services/ml_service.py
lines 466-565, and train_models_with_progress, app/routers/analysis.py
lines 908-1276)

Ranking scores: for classification the primary score is the accuracy and
an error entry gets score 0; for regression the primary score is R² and
an error entry gets float minus infinity (ml_service.py lines 517, 560).
Minus infinity is modelled by the bottom element of WithBot. -/

abbrev Score := WithBot ℚ

/-- Metric set of one successful classification fit
(ml_service.py lines 501-511). -/
structure ClsMetrics where
  accuracy : ℚ
  precision : ℚ
  recallScore : ℚ
  f1_score : ℚ
  cv_mean : ℚ
  cv_std : ℚ
deriving DecidableEq, Repr

/-- Metric set of one successful regression fit
(ml_service.py lines 545-554). -/
structure RegMetrics where
  r2_score : ℚ
  mse : ℚ
  mae : ℚ
  cv_mean : ℚ
  cv_std : ℚ
deriving DecidableEq, Repr

/-- One entry of the results list built by the sweep: either a success
entry carrying the metric set, or an error entry carrying the message. -/
structure MLResult where
  name : String
  clsMetrics : Option ClsMetrics
  regMetrics : Option RegMetrics
  errorMsg : Option String
  score : Score
deriving DecidableEq, Repr

/-- Classification catalog, in source order (ml_service.py lines 475-483). -/
def classificationCatalog : List String :=
  ["Logistic Regression", "Random Forest", "XGBoost", "SVM",
   "Decision Tree", "Naive Bayes", "K-Nearest Neighbors"]

/-- Regression catalog, in source order (ml_service.py lines 522-528). -/
def regressionCatalog : List String :=
  ["Linear Regression", "Random Forest", "SVR",
   "Decision Tree", "K-Nearest Neighbors"]

/-- The fit of one model family is external (sklearn): the environment
either yields a metric set or raises with a message. -/
abbrev ClsFit := String → Except String ClsMetrics
abbrev RegFit := String → Except String RegMetrics

/-- Worst possible primary score per task type: an error entry is recorded
with score 0 for classification and minus infinity for regression
(ml_service.py lines 514-518 and 557-561). -/
def worstClsScore : Score := ((0 : ℚ) : Score)

def worstRegScore : Score := ⊥

/-- The loop body for one classification family (ml_service.py lines
485-518): on success the entry keeps the metrics and scores the accuracy;
on error the entry records the message and the worst score. -/
def clsSweepEntry (fit : ClsFit) (name : String) : MLResult :=
  match fit name with
  | .ok m =>
    { name := name, clsMetrics := some m, regMetrics := none,
      errorMsg := none, score := (m.accuracy : Score) }
  | .error e =>
    { name := name, clsMetrics := none, regMetrics := none,
      errorMsg := some e, score := worstClsScore }

/-- The loop body for one regression family (ml_service.py lines 530-561). -/
def regSweepEntry (fit : RegFit) (name : String) : MLResult :=
  match fit name with
  | .ok m =>
    { name := name, clsMetrics := none, regMetrics := some m,
      errorMsg := none, score := (m.r2_score : Score) }
  | .error e =>
    { name := name, clsMetrics := none, regMetrics := none,
      errorMsg := some e, score := worstRegScore }

/-- Insert an entry into an already ranked list, after every entry whose
score is greater than or equal to its own. -/
def insertRanked (x : MLResult) : List MLResult → List MLResult
  | [] => [x]
  | y :: ys => if y.score < x.score then x :: y :: ys else y :: insertRanked x ys

/-- results.sort(key score, reverse=True) (ml_service.py line 564,
analysis.py line 1275): a stable sort, descending by score — the unique
reordering that is sorted by descending score and keeps entries with
equal scores in list (catalog) order.  Realised as a stable insertion
sort processing entries left to right. -/
def rankResults (l : List MLResult) : List MLResult :=
  l.foldl (fun acc x => insertRanked x acc) []

/-- MLService._train_models for classification: build one entry per
catalog family in catalog order, then sort descending by score. -/
def train_models_cls (fit : ClsFit) : List MLResult :=
  rankResults (classificationCatalog.map (clsSweepEntry fit))

/-- MLService._train_models for regression. -/
def train_models_reg (fit : RegFit) : List MLResult :=
  rankResults (regressionCatalog.map (regSweepEntry fit))

/-! ## train_auto_ml (app/services/ml_service.py lines 80-205)

The Run row and ModelMeta effects of one AutoML training call.  The code
that the claims are about runs after data preparation succeeded: the run
is created RUNNING with current_task "Training models" (lines 122-136,
progress takes the column default 0.0), the sweep runs, one ModelMeta row
is stored per entry without an error key (lines 142-166), and then the
run is unconditionally set to COMPLETED with finished_at = now
(lines 168-171); progress and current_task are not touched.
train_auto_ml_with_progress (app/routers/analysis.py lines 711-906)
performs the same Run row and ModelMeta writes (lines 783-850). -/

structure AutoMLOutcome where
  run : RunRow
  modelMetaNames : List String
  results : List MLResult
deriving DecidableEq, Repr

def train_auto_ml (fit : ClsFit) : AutoMLOutcome :=
  let created : RunRow :=
    { status := .RUNNING, current_task := some "Training models",
      progress := 0, started_at := none, finished_at := none }
  let results := train_models_cls fit
  let metas := (results.filter (fun r => r.errorMsg = none)).map (fun r => r.name)
  { run := { created with status := .COMPLETED, finished_at := some () },
    modelMetaNames := metas, results := results }

/-! ## Progress channel (ConnectionManager, app/routers/analysis.py
lines 668-692)

The registry is a dict from project id to the list of websockets
subscribed under that scope; the dict keeps insertion order, modelled as
an association list.  A websocket is identified by an opaque id; whether
sending to it succeeds is an environment parameter of broadcast. -/

abbrev WSocket := ℕ

structure ConnectionManager where
  active_connections : List (String × List WSocket)
deriving DecidableEq, Repr

/-- Dict lookup: the observer list registered under a scope, if any. -/
def lookupScope (cm : ConnectionManager) (pid : String) : Option (List WSocket) :=
  (cm.active_connections.find? (fun kv => kv.1 == pid)).map (fun kv => kv.2)

/-- connect (analysis.py lines 672-676): create the key with an empty
list on first subscription, then append the websocket. -/
def connect (cm : ConnectionManager) (pid : String) (ws : WSocket) : ConnectionManager :=
  match lookupScope cm pid with
  | none => ⟨cm.active_connections ++ [(pid, [ws])]⟩
  | some _ =>
    ⟨cm.active_connections.map (fun kv => if kv.1 = pid then (kv.1, kv.2 ++ [ws]) else kv)⟩

/-- list.remove of Python: drop the first occurrence. -/
def removeFirst (ws : WSocket) : List WSocket → List WSocket
  | [] => []
  | w :: rest => if w = ws then rest else w :: removeFirst ws rest

/-- disconnect (analysis.py lines 678-682): if the scope is registered,
remove the websocket from its list (list.remove raises ValueError when it
is absent, modelled as none) and delete the key when the list becomes
empty; if the scope is unknown, do nothing. -/
def disconnect (cm : ConnectionManager) (pid : String) (ws : WSocket) :
    Option ConnectionManager :=
  match lookupScope cm pid with
  | none => some cm
  | some l =>
    if ws ∈ l then
      let l' := removeFirst ws l
      if l' = [] then
        some ⟨cm.active_connections.filter (fun kv => ¬ kv.1 = pid)⟩
      else
        some ⟨cm.active_connections.map (fun kv => if kv.1 = pid then (kv.1, l') else kv)⟩
    else none

/-- The for loop of broadcast (analysis.py lines 686-690): send to each
observer in registration order; a failed send is caught, one error line
is logged for it, and the loop continues.  Returns the observers reached
and the observers whose failure was logged, in loop order. -/
def broadcastLoop (deliverOk : WSocket → Bool) : List WSocket → List WSocket × List WSocket
  | [] => ([], [])
  | w :: ws =>
    let rest := broadcastLoop deliverOk ws
    if deliverOk w then (w :: rest.1, rest.2)
    else (rest.1, w :: rest.2)

/-- broadcast (analysis.py lines 684-690): deliver to the observers of
the scope, if the scope is registered at all; the registry itself is
returned unchanged — the loop never mutates active_connections. -/
def broadcast (cm : ConnectionManager) (pid : String) (deliverOk : WSocket → Bool) :
    (List WSocket × List WSocket) × ConnectionManager :=
  match lookupScope cm pid with
  | none => (([], []), cm)
  | some l => (broadcastLoop deliverOk l, cm)

/-- Registry well-formedness: scope keys are unique (a dict) and every
registered scope holds a non-empty observer list. -/
def WfRegistry (cm : ConnectionManager) : Prop :=
  (cm.active_connections.map (fun kv => kv.1)).Nodup ∧
    ∀ kv ∈ cm.active_connections, kv.2 ≠ []

/-! ## Run submission endpoints

start_run (Desktop/webProject/Web_UAM_v1.0/app/routers/runs.py lines
48-82) belongs to the older application tree, whose ORM models are not in
the snapshot; the Dataset columns used by the router itself (id,
project_id, storage_key) are taken from its usage there.
start_eda (app/routers/analysis.py lines 161-195) uses the current
models (app/db/models.py): Dataset has no project column and project
membership lives in the project_datasets table. -/

structure ProjectRow where
  id : String
  user_id : String
deriving DecidableEq, Repr

/-- Dataset row of the older tree, as used by runs.py (id, project_id,
storage_key). -/
structure DatasetRowV0 where
  id : String
  project_id : String
  storage_key : String
deriving DecidableEq, Repr

/-- Dataset row of the current tree (app/db/models.py lines 44-56):
no project column. -/
structure DatasetRowV1 where
  id : String
  user_id : String
  storage_key : String
deriving DecidableEq, Repr

/-- project_datasets association row (app/db/models.py lines 82-90). -/
structure ProjectDatasetRow where
  project_id : String
  dataset_id : String
deriving DecidableEq, Repr

/-- A newly created Run row as stored by a submission endpoint. -/
structure RunRecord where
  project_id : String
  dataset_id : String
  status : Status
  progress : ℚ
deriving DecidableEq, Repr

structure RunsDbV0 where
  projects : List ProjectRow
  datasets : List DatasetRowV0
  runs : List RunRecord
deriving DecidableEq, Repr

structure AnalysisDb where
  projects : List ProjectRow
  datasets : List DatasetRowV1
  project_datasets : List ProjectDatasetRow
  runs : List RunRecord
deriving DecidableEq, Repr

/-- start_run (Desktop/.../routers/runs.py lines 48-82): 404 when the
project is not owned by the caller; 404 when no dataset row has the given
id and project; otherwise insert one PENDING run with progress 0.0 and
enqueue the Celery chain. -/
def start_run (db : RunsDbV0) (user pid did : String) : Except ℕ (RunsDbV0 × RunRecord) :=
  match db.projects.find? (fun p => p.id == pid && p.user_id == user) with
  | none => .error 404
  | some _ =>
    match db.datasets.find? (fun d => d.id == did && d.project_id == pid) with
    | none => .error 404
    | some _ =>
      let run : RunRecord :=
        { project_id := pid, dataset_id := did, status := .PENDING, progress := 0 }
      .ok ({ db with runs := db.runs ++ [run] }, run)

/-- start_eda (app/routers/analysis.py lines 161-195): 404 when the
project is not owned by the caller.  The dataset check is the query
db.query(Dataset).filter(Dataset.id == dataset_id,
ProjectDataset.project_id == project_id).first() — ProjectDataset is
never joined to Dataset, so the two tables form a cartesian product and
the filter succeeds as soon as SOME dataset row has the requested id and
SOME project_datasets row (for any dataset) has the requested project id.
When it succeeds, one PENDING run is inserted and EDA starts on it. -/
def start_eda (db : AnalysisDb) (user pid did : String) : Except ℕ AnalysisDb :=
  match db.projects.find? (fun p => p.id == pid && p.user_id == user) with
  | none => .error 404
  | some _ =>
    if (db.datasets.any (fun d => d.id == did)) &&
        (db.project_datasets.any (fun pd => pd.project_id == pid)) then
      .ok { db with runs := db.runs ++
        [{ project_id := pid, dataset_id := did, status := .PENDING, progress := 0 }] }
    else
      .error 404

/-! ## Derived predicates and concrete instances used by the theorems -/

/-- A results list sorted descending by primary score. -/
def RankedList (l : List MLResult) : Prop :=
  l.Pairwise (fun a b => b.score ≤ a.score)

/-- The spec example for ranking: family scores A ↦ 0.91, B ↦ 0.87,
C ↦ 0.91, catalog order [A, B, C]. -/
def exampleScoresFit : ClsFit := fun n =>
  if n = "A" then .ok ⟨mkRat 91 100, 0, 0, 0, 0, 0⟩
  else if n = "B" then .ok ⟨mkRat 87 100, 0, 0, 0, 0, 0⟩
  else if n = "C" then .ok ⟨mkRat 91 100, 0, 0, 0, 0, 0⟩
  else .error "unknown family"

def exampleRanking : List MLResult :=
  rankResults (["A", "B", "C"].map (clsSweepEntry exampleScoresFit))

/-- The spec example for failure isolation: A fits with accuracy 0.91,
the fit of B raises, C fits with accuracy 0.87. -/
def exampleFailFit : ClsFit := fun n =>
  if n = "A" then .ok ⟨mkRat 91 100, 0, 0, 0, 0, 0⟩
  else if n = "B" then .error "boom"
  else if n = "C" then .ok ⟨mkRat 87 100, 0, 0, 0, 0, 0⟩
  else .error "unknown family"

def exampleFailRanking : List MLResult :=
  rankResults (["A", "B", "C"].map (clsSweepEntry exampleFailFit))

/-- A registry with one scope and three observers, and a delivery
environment in which sending to observer 2 fails. -/
def cexManager : ConnectionManager := ⟨[("p", [1, 2, 3])]⟩

def cexDeliver : WSocket → Bool := fun w => w != 2

/-- Concrete database for the start_eda dataset check: the caller owns
project P1, datasets D1 and D2 exist, and the only project_datasets row
associates P1 with D2 — D1 is not associated with P1. -/
def cexAnalysisDb : AnalysisDb :=
  { projects := [{ id := "P1", user_id := "U1" }],
    datasets := [{ id := "D1", user_id := "U1", storage_key := "k1" },
                 { id := "D2", user_id := "U1", storage_key := "k2" }],
    project_datasets := [{ project_id := "P1", dataset_id := "D2" }],
    runs := [] }

/-! ## Helper lemmas about the stable ranking -/

theorem insertRanked_perm (x : MLResult) (l : List MLResult) :
    (insertRanked x l).Perm (x :: l) := by
  induction l with
  | nil => simp [insertRanked]
  | cons y ys ih =>
    by_cases h : y.score < x.score
    · simp [insertRanked, h]
    · simp only [insertRanked, if_neg h]
      exact (ih.cons y).trans (List.Perm.swap x y ys)

theorem mem_insertRanked {a x : MLResult} {l : List MLResult} :
    a ∈ insertRanked x l ↔ a = x ∨ a ∈ l := by
  rw [(insertRanked_perm x l).mem_iff, List.mem_cons]

theorem insertRanked_ranked (x : MLResult) {l : List MLResult} (h : RankedList l) :
    RankedList (insertRanked x l) := by
  induction l with
  | nil => simp [insertRanked, RankedList]
  | cons y ys ih =>
    obtain ⟨hy, hys⟩ := List.pairwise_cons.1 h
    by_cases hxy : y.score < x.score
    · simp only [insertRanked, if_pos hxy]
      refine List.pairwise_cons.2 ⟨?_, h⟩
      intro z hz
      rcases List.mem_cons.1 hz with rfl | hz'
      · exact le_of_lt hxy
      · exact (hy z hz').trans (le_of_lt hxy)
    · simp only [insertRanked, if_neg hxy]
      refine List.pairwise_cons.2 ⟨?_, ih hys⟩
      intro z hz
      rcases mem_insertRanked.1 hz with rfl | hz'
      · exact le_of_not_lt hxy
      · exact hy z hz'

theorem rankResults_go_ranked (l acc : List MLResult) (h : RankedList acc) :
    RankedList (l.foldl (fun a x => insertRanked x a) acc) := by
  induction l generalizing acc with
  | nil => simpa using h
  | cons x xs ih => exact ih _ (insertRanked_ranked x h)

theorem rankResults_ranked (l : List MLResult) : RankedList (rankResults l) :=
  rankResults_go_ranked l [] (by simp [RankedList])

theorem rankResults_go_perm (l acc : List MLResult) :
    (l.foldl (fun a x => insertRanked x a) acc).Perm (acc ++ l) := by
  induction l generalizing acc with
  | nil => simp
  | cons x xs ih =>
    refine (ih (insertRanked x acc)).trans ?_
    refine (((insertRanked_perm x acc).append_right xs).trans ?_)
    exact List.perm_middle.symm

theorem rankResults_perm (l : List MLResult) : (rankResults l).Perm l := by
  simpa using rankResults_go_perm l []

theorem ranked_head_le {l : List MLResult} (h : RankedList l) :
    ∀ a ∈ l, ∀ b ∈ l.head?, a.score ≤ b.score := by
  intro a ha b hb
  cases l with
  | nil => cases ha
  | cons c cs =>
    obtain rfl : c = b := by simpa using hb
    rcases List.mem_cons.1 ha with rfl | ha'
    · exact le_refl _
    · exact (List.pairwise_cons.1 h).1 a ha'

theorem insertRanked_filter (x : MLResult) (q : Score) (l : List MLResult)
    (h : RankedList l) :
    (insertRanked x l).filter (fun r => decide (r.score = q))
      = if x.score = q then
          l.filter (fun r => decide (r.score = q)) ++ [x]
        else
          l.filter (fun r => decide (r.score = q)) := by
  induction l with
  | nil =>
    by_cases hx : x.score = q <;> simp [insertRanked, hx]
  | cons y ys ih =>
    have hy : ∀ z ∈ y :: ys, z.score ≤ y.score := by
      intro z hz
      rcases List.mem_cons.1 hz with rfl | hz'
      · exact le_refl _
      · exact (List.pairwise_cons.1 h).1 z hz'
    have hys : RankedList ys := (List.pairwise_cons.1 h).2
    by_cases hxy : y.score < x.score
    · simp only [insertRanked, if_pos hxy]
      by_cases hx : x.score = q
      · have hnil : (y :: ys).filter (fun r => decide (r.score = q)) = [] := by
          refine List.filter_eq_nil_iff.2 ?_
          intro z hz
          have hlt : z.score < q := hx ▸ lt_of_le_of_lt (hy z hz) hxy
          simp [ne_of_lt hlt]
        rw [if_pos hx, hnil, List.filter_cons, hnil]
        simp [hx]
      · rw [if_neg hx, List.filter_cons]
        simp [hx]
    · simp only [insertRanked, if_neg hxy]
      rw [List.filter_cons, List.filter_cons, ih hys]
      by_cases hx : x.score = q <;> by_cases hyq : y.score = q <;>
        simp [hx, hyq]

theorem rankResults_go_filter (q : Score) (l acc : List MLResult) (h : RankedList acc) :
    (l.foldl (fun a x => insertRanked x a) acc).filter (fun r => decide (r.score = q))
      = acc.filter (fun r => decide (r.score = q))
          ++ l.filter (fun r => decide (r.score = q)) := by
  induction l generalizing acc with
  | nil => simp
  | cons x xs ih =>
    rw [List.foldl_cons, ih _ (insertRanked_ranked x h), insertRanked_filter x q acc h,
      List.filter_cons]
    by_cases hx : x.score = q <;> simp [hx]

/-- The stable sort keeps the entries of any fixed score in input order. -/
theorem rankResults_filter (l : List MLResult) (q : Score) :
    (rankResults l).filter (fun r => decide (r.score = q))
      = l.filter (fun r => decide (r.score = q)) := by
  simpa using rankResults_go_filter q l [] (by simp [RankedList])

/-! ## Helper lemmas about the progress channel -/

theorem broadcastLoop_spec (dOk : WSocket → Bool) (l : List WSocket) :
    (broadcastLoop dOk l).1 = l.filter dOk ∧
      (broadcastLoop dOk l).2 = l.filter (fun w => ! dOk w) := by
  induction l with
  | nil => simp [broadcastLoop]
  | cons w ws ih =>
    by_cases h : dOk w <;>
      simp [broadcastLoop, h, ih.1, ih.2, List.filter_cons]

theorem lookupScope_eq_none_iff {cm : ConnectionManager} {pid : String} :
    lookupScope cm pid = none ↔ ∀ kv ∈ cm.active_connections, kv.1 ≠ pid := by
  simp [lookupScope]

theorem connect_wf {cm : ConnectionManager} (pid : String) (ws : WSocket)
    (h : WfRegistry cm) : WfRegistry (connect cm pid ws) := by
  obtain ⟨hnd, hne⟩ := h
  unfold connect
  cases hfind : lookupScope cm pid with
  | none =>
    refine ⟨?_, ?_⟩
    · rw [List.map_append, List.nodup_append]
      refine ⟨hnd, by simp, ?_⟩
      intro a ha hb
      obtain rfl : a = pid := by simpa using hb
      obtain ⟨kv, hkv, hfst⟩ := List.mem_map.1 ha
      exact lookupScope_eq_none_iff.1 hfind kv hkv hfst
    · intro kv hkv
      rcases List.mem_append.1 hkv with hl | hr
      · exact hne kv hl
      · obtain rfl : kv = (pid, [ws]) := by simpa using hr
        simp
  | some l =>
    refine ⟨?_, ?_⟩
    · rw [List.map_map]
      have : ∀ kv ∈ cm.active_connections,
          ((fun kv => kv.1) ∘ fun kv : String × List WSocket =>
            if kv.1 = pid then (kv.1, kv.2 ++ [ws]) else kv) kv = kv.1 := by
        intro kv _
        by_cases hkv : kv.1 = pid <;> simp [hkv]
      rw [List.map_congr_left this]
      exact hnd
    · intro kv' hkv'
      obtain ⟨kv, hkv, rfl⟩ := List.mem_map.1 hkv'
      by_cases hkvp : kv.1 = pid
      · simp [hkvp]
      · simpa [hkvp] using hne kv hkv

theorem connect_fresh_scope {cm : ConnectionManager} {pid : String} (ws : WSocket)
    (h : lookupScope cm pid = none) :
    lookupScope (connect cm pid ws) pid = some [ws] := by
  unfold connect
  rw [h]
  have hfind : cm.active_connections.find? (fun kv => kv.1 == pid) = none := by
    unfold lookupScope at h
    exact Option.map_eq_none.mp h
  unfold lookupScope
  simp [List.find?_append, hfind]

theorem disconnect_wf {cm cm' : ConnectionManager} {pid : String} {ws : WSocket}
    (h : WfRegistry cm) (hd : disconnect cm pid ws = some cm') : WfRegistry cm' := by
  obtain ⟨hnd, hne⟩ := h
  unfold disconnect at hd
  cases hfind : lookupScope cm pid with
  | none =>
    rw [hfind] at hd
    dsimp only at hd
    cases hd
    exact ⟨hnd, hne⟩
  | some l =>
    rw [hfind] at hd
    dsimp only at hd
    by_cases hmem : ws ∈ l
    · rw [if_pos hmem] at hd
      by_cases hemp : removeFirst ws l = []
      · rw [if_pos hemp] at hd
        cases hd
        refine ⟨?_, ?_⟩
        · exact hnd.sublist (List.Sublist.map _ (List.filter_sublist _))
        · intro kv hkv
          exact hne kv (List.mem_of_mem_filter hkv)
      · rw [if_neg hemp] at hd
        cases hd
        refine ⟨?_, ?_⟩
        · rw [List.map_map]
          have : ∀ kv ∈ cm.active_connections,
              ((fun kv => kv.1) ∘ fun kv : String × List WSocket =>
                if kv.1 = pid then (kv.1, removeFirst ws l) else kv) kv = kv.1 := by
            intro kv _
            by_cases hkv : kv.1 = pid <;> simp [hkv]
          rw [List.map_congr_left this]
          exact hnd
        · intro kv' hkv'
          obtain ⟨kv, hkv, rfl⟩ := List.mem_map.1 hkv'
          by_cases hkvp : kv.1 = pid
          · simpa [hkvp] using hemp
          · simpa [hkvp] using hne kv hkv
    · rw [if_neg hmem] at hd
      cases hd

theorem find?_filter_ne_none (l : List (String × List WSocket)) (pid : String) :
    ((l.filter (fun kv => ¬ kv.1 = pid)).find? (fun kv => kv.1 == pid)) = none := by
  induction l with
  | nil => rfl
  | cons kv rest ih =>
    by_cases h : kv.1 = pid <;> simp [List.filter_cons, h, ih]

theorem disconnect_last_observer {cm : ConnectionManager} {pid : String} {ws : WSocket}
    (hfind : lookupScope cm pid = some [ws]) :
    ∀ cm', disconnect cm pid ws = some cm' → lookupScope cm' pid = none := by
  intro cm' hd
  unfold disconnect at hd
  rw [hfind] at hd
  dsimp only at hd
  have hrm : removeFirst ws [ws] = [] := by simp [removeFirst]
  rw [if_pos (by simp)] at hd
  rw [if_pos hrm] at hd
  cases hd
  unfold lookupScope
  rw [find?_filter_ne_none]
  rfl

/-- edaSyncTrace is the full success trace once all six run-row commits
completed. -/
theorem edaSyncTrace_of_ge (steps : ℕ) (h : 6 ≤ steps) :
    edaSyncTrace steps = edaSyncTrace 6 := by
  unfold edaSyncTrace
  rw [List.take_of_length_le (l := edaSyncCommits) (by simp [edaSyncCommits]; omega),
    List.take_of_length_le (l := edaSyncCommits) (by simp [edaSyncCommits])]
  rw [if_neg (by omega), if_neg (by omega)]

/-! ## Claim theorems -/

/-- C1: for every Run, across every execution of the submission pipeline
chain (any combination of stage successes and failures) and every
execution of the synchronous EDA pipeline (raising after any number of
its commits), the progress values of the successive persisted writes
performed while the Run has not yet reached COMPLETED or FAILED form a
non-decreasing sequence. -/
theorem progress_monotone_until_terminal :
    (∀ o1 o2 o3 o4 : Bool,
      List.Pairwise (· ≤ ·)
        ((untilTerminal (chainTrace o1 o2 o3 o4)).map (fun d => d.run.progress))) ∧
    (∀ steps : ℕ,
      List.Pairwise (· ≤ ·)
        ((untilTerminal (edaSyncTrace steps)).map (fun d => d.run.progress))) := by
  constructor
  · decide
  · intro steps
    by_cases h : 6 ≤ steps
    · rw [edaSyncTrace_of_ge steps h]
      decide
    · rw [Nat.not_le] at h
      interval_cases steps <;> decide

/-- C2 counterexample: in the all-success submission chain, the Run is
COMPLETED with progress 1.0 after the EDA task (write 5), yet the later
train_models task overwrites its current_task (write 7) and lowers its
progress to 0.75 (write 8), and only INFO rows are ever logged — the
terminal Run is mutated with no protocol-error log, so transitioning a
terminal Run is not a no-op. -/
theorem terminal_run_mutated_cex :
    ((chainTrace true true true true)[5]?).map
        (fun d => (d.run.status, d.run.progress, d.run.current_task))
      = some (.COMPLETED, 1, none) ∧
    ((chainTrace true true true true)[7]?).map
        (fun d => (d.run.status, d.run.current_task))
      = some (.COMPLETED, some "Training") ∧
    ((chainTrace true true true true)[8]?).map (fun d => d.run.progress)
      = some (mkRat 3 4) ∧
    ((chainTrace true true true true).getLast?).map (fun d => d.logs.map Prod.fst)
      = some ["INFO", "INFO", "INFO", "INFO"] := by
  decide

/-- C2 amended: the pipeline operations perform no terminal-state check.
In the submission chain the Run reaches COMPLETED mid-chain at the EDA
task; the later tasks still mutate its current_task and progress, a
later failing task even overwrites the terminal status with FAILED, and
no protocol error is logged (the chain writes only INFO rows while
succeeding). -/
theorem terminal_state_not_guarded :
    (∀ o3 o4 : Bool,
      ((chainTrace true true o3 o4)[5]?).map (fun d => d.run.status.isTerminal)
        = some true ∧
      ((chainTrace true true o3 o4)[7]?).map (fun d => d.run.current_task)
        = some (some "Training")) ∧
    (∀ o4 : Bool,
      (chainTrace true true false o4).getLast?.map (fun d => d.run.status)
        = some .FAILED) ∧
    ((chainTrace true true true true)[8]?).map (fun d => d.run.progress)
      = some (mkRat 3 4) ∧
    ((chainTrace true true true true).getLast?.map
        (fun d => (d.logs.map Prod.fst).all (fun lv => lv == "INFO")))
      = some true := by
  decide

/-- C3 counterexample: the all-success submission chain ends with the Run
transitioned from RUNNING to COMPLETED by finalize_run, with progress 1.0
and current_task cleared but finished_at still unset — the transition
does not set the finished_at timestamp. -/
theorem completed_missing_finished_at_cex :
    (chainTrace true true true true).getLast?.map
        (fun d => (d.run.status, d.run.progress, d.run.current_task, d.run.finished_at))
      = some (.COMPLETED, 1, none, none) := by
  decide

/-- C3 amended: at a transition to COMPLETED the worker tasks
(finalize_run, run_eda, run_eda_sync) force progress to 1.0 and clear
current_task but never set finished_at, while the AutoML service sets
finished_at but leaves progress and current_task at their in-flight
values. -/
theorem completed_transition_effects :
    ((chainTrace true true true true).getLast?.map
        (fun d => (d.run.status, d.run.progress, d.run.current_task, d.run.finished_at))
      = some (.COMPLETED, 1, none, none)) ∧
    ((edaSyncTrace 6).getLast?.map
        (fun d => (d.run.status, d.run.progress, d.run.current_task, d.run.finished_at))
      = some (.COMPLETED, 1, none, none)) ∧
    (∀ fit : ClsFit,
      (train_auto_ml fit).run =
        { status := .COMPLETED, current_task := some "Training models", progress := 0,
          started_at := none, finished_at := some () }) := by
  refine ⟨by decide, by decide, fun fit => rfl⟩

/-- C4: for every completed sweep (classification and regression, any fit
outcomes) the returned list is a permutation of the per-family entries
that is sorted descending by primary score (accuracy resp. R²), and the
entries of any fixed score keep their catalog order (stability); for the
spec instance with scores A 0.91, B 0.87, C 0.91 in catalog order
[A, B, C] the ranking is [A, C, B] with best entry A. -/
theorem training_results_ranking :
    (∀ fit : ClsFit,
      RankedList (train_models_cls fit) ∧
      (train_models_cls fit).Perm (classificationCatalog.map (clsSweepEntry fit)) ∧
      ∀ q : Score,
        (train_models_cls fit).filter (fun r => decide (r.score = q))
          = (classificationCatalog.map (clsSweepEntry fit)).filter
              (fun r => decide (r.score = q))) ∧
    (∀ fit : RegFit,
      RankedList (train_models_reg fit) ∧
      (train_models_reg fit).Perm (regressionCatalog.map (regSweepEntry fit)) ∧
      ∀ q : Score,
        (train_models_reg fit).filter (fun r => decide (r.score = q))
          = (regressionCatalog.map (regSweepEntry fit)).filter
              (fun r => decide (r.score = q))) ∧
    (exampleRanking.map (fun r => r.name) = ["A", "C", "B"] ∧
      exampleRanking.head?.map (fun r => (r.name, r.score))
        = some ("A", ((mkRat 91 100 : ℚ) : Score))) := by
  refine ⟨fun fit => ⟨rankResults_ranked _, rankResults_perm _, fun q => rankResults_filter _ q⟩,
    fun fit => ⟨rankResults_ranked _, rankResults_perm _, fun q => rankResults_filter _ q⟩,
    by decide, by decide⟩

/-- C5: a family whose fit raises is recorded as an error entry scored
with the worst value of the task type (0 for classification, bottom for
regression), every entry depends only on the outcome of its own family
(so the other entries are unaffected by the failure and the sweep
continues), an error entry never outranks a success, and in the spec
instance where the fit of B raises the ranking still holds A and C with
their correct scores and B last with an error marker. -/
theorem family_failure_isolation :
    (∀ (fit fit' : ClsFit) (f : String), fit f = fit' f →
      clsSweepEntry fit f = clsSweepEntry fit' f) ∧
    (∀ (fit fit' : RegFit) (f : String), fit f = fit' f →
      regSweepEntry fit f = regSweepEntry fit' f) ∧
    (∀ (fit : ClsFit) (f e : String), fit f = .error e →
      clsSweepEntry fit f =
        { name := f, clsMetrics := none, regMetrics := none,
          errorMsg := some e, score := worstClsScore }) ∧
    (∀ (fit : RegFit) (f e : String), fit f = .error e →
      regSweepEntry fit f =
        { name := f, clsMetrics := none, regMetrics := none,
          errorMsg := some e, score := worstRegScore }) ∧
    (∀ (fit : ClsFit) (f g e : String) (m : ClsMetrics),
      fit f = .error e → fit g = .ok m → 0 ≤ m.accuracy →
      (clsSweepEntry fit f).score ≤ (clsSweepEntry fit g).score) ∧
    (∀ (fit : RegFit) (f e : String) (r : MLResult), fit f = .error e →
      (regSweepEntry fit f).score ≤ r.score) ∧
    (∀ (b : String) (fit fit' : ClsFit), (∀ g, g ≠ b → fit g = fit' g) →
      (classificationCatalog.filter (fun g => g ≠ b)).map (clsSweepEntry fit)
        = (classificationCatalog.filter (fun g => g ≠ b)).map (clsSweepEntry fit')) ∧
    (exampleFailRanking.map (fun r => (r.name, r.errorMsg.isSome))
        = [("A", false), ("C", false), ("B", true)] ∧
      exampleFailRanking.getLast?.map (fun r => (r.name, r.errorMsg, r.score))
        = some ("B", some "boom", worstClsScore) ∧
      (exampleFailRanking.filter (fun r => r.errorMsg.isNone)).map
          (fun r => (r.name, r.score))
        = [("A", ((mkRat 91 100 : ℚ) : Score)), ("C", ((mkRat 87 100 : ℚ) : Score))]) := by
  refine ⟨?_, ?_, ?_, ?_, ?_, ?_, ?_, by decide, by decide, by decide⟩
  · intro fit fit' f h
    unfold clsSweepEntry
    rw [h]
  · intro fit fit' f h
    unfold regSweepEntry
    rw [h]
  · intro fit f e h
    unfold clsSweepEntry
    rw [h]
  · intro fit f e h
    unfold regSweepEntry
    rw [h]
  · intro fit f g e m hf hg hm
    unfold clsSweepEntry
    rw [hf, hg]
    simpa [worstClsScore] using hm
  · intro fit f e r hf
    unfold regSweepEntry
    rw [hf]
    exact bot_le
  · intro b fit fit' hagree
    refine List.map_congr_left ?_
    intro g hg
    have hgb : g ≠ b := by
      have := (List.mem_filter.1 hg).2
      simpa using this
    unfold clsSweepEntry
    rw [hagree g hgb]

/-- Witness for C5: the hypothesis-bearing parts applied at the concrete
spec instance (family B raising, A and C fitting). -/
theorem family_failure_isolation_witness :
    (clsSweepEntry exampleFailFit "A" = clsSweepEntry exampleFailFit "A") ∧
    (regSweepEntry (fun _ => .error "boom") "SVR"
      = regSweepEntry (fun _ => .error "boom") "SVR") ∧
    (clsSweepEntry exampleFailFit "B" =
      { name := "B", clsMetrics := none, regMetrics := none,
        errorMsg := some "boom", score := worstClsScore }) ∧
    (regSweepEntry (fun _ => .error "boom") "SVR" =
      { name := "SVR", clsMetrics := none, regMetrics := none,
        errorMsg := some "boom", score := worstRegScore }) ∧
    ((clsSweepEntry exampleFailFit "B").score ≤ (clsSweepEntry exampleFailFit "A").score) ∧
    ((regSweepEntry (fun _ => .error "boom") "SVR").score
      ≤ (clsSweepEntry exampleFailFit "A").score) ∧
    ((classificationCatalog.filter (fun g => g ≠ "B")).map (clsSweepEntry exampleFailFit)
      = (classificationCatalog.filter (fun g => g ≠ "B")).map
          (clsSweepEntry (fun n =>
            if n = "B" then .ok ⟨1, 0, 0, 0, 0, 0⟩ else exampleFailFit n))) :=
  ⟨family_failure_isolation.1 exampleFailFit exampleFailFit "A" rfl,
   family_failure_isolation.2.1 (fun _ => .error "boom") (fun _ => .error "boom") "SVR" rfl,
   family_failure_isolation.2.2.1 exampleFailFit "B" "boom" rfl,
   family_failure_isolation.2.2.2.1 (fun _ => .error "boom") "SVR" "boom" rfl,
   family_failure_isolation.2.2.2.2.1 exampleFailFit "B" "A" "boom"
     ⟨mkRat 91 100, 0, 0, 0, 0, 0⟩ rfl rfl (by decide),
   family_failure_isolation.2.2.2.2.2.1 (fun _ => .error "boom") "SVR" "boom"
     (clsSweepEntry exampleFailFit "A") rfl,
   family_failure_isolation.2.2.2.2.2.2.1 "B" exampleFailFit
     (fun n => if n = "B" then .ok ⟨1, 0, 0, 0, 0, 0⟩ else exampleFailFit n)
     (by intro g hg; simp [hg])⟩

/-- C6 counterexample: when every family fit raises, train_auto_ml still
transitions the Run to COMPLETED — it is not transitioned to FAILED. -/
theorem all_families_fail_completed_cex :
    (train_auto_ml (fun _ => .error "fit raised")).run.status = Status.COMPLETED ∧
    Status.COMPLETED ≠ Status.FAILED :=
  ⟨rfl, by decide⟩

/-- C6 amended: the all-families-failed case is not detected: whatever
the fit outcomes, train_auto_ml marks the Run COMPLETED; when every
family fails no ModelMeta row is persisted and every returned entry is
an error entry, yet the training stage is not treated as a stage error. -/
theorem all_families_fail_outcome :
    (∀ fit : ClsFit, (train_auto_ml fit).run.status = Status.COMPLETED) ∧
    (train_auto_ml (fun _ => .error "fit raised")).modelMetaNames = [] ∧
    ((train_auto_ml (fun _ => .error "fit raised")).results.all
        (fun r => r.errorMsg.isSome)) = true := by
  refine ⟨fun fit => rfl, by decide, by decide⟩

/-- C7 counterexample: broadcasting to scope p where delivery to observer
2 fails reaches observers 1 and 3 and logs the failure, but observer 2 is
NOT evicted: the registry is unchanged and still holds [1, 2, 3]. -/
theorem broadcast_no_eviction_cex :
    (broadcast cexManager "p" cexDeliver).1.1 = [1, 3] ∧
    (broadcast cexManager "p" cexDeliver).1.2 = [2] ∧
    (broadcast cexManager "p" cexDeliver).2 = cexManager ∧
    lookupScope ((broadcast cexManager "p" cexDeliver).2) "p" = some [1, 2, 3] := by
  decide

/-- C7 amended: broadcast delivers to every registered observer of the
scope whose send succeeds, in registration order; each failed send is
caught and logged and the loop continues, so the publisher never crashes
and the remaining observers still receive the event — but the failing
observer is not evicted: the registry is returned unchanged. -/
theorem broadcast_best_effort :
    ∀ (cm : ConnectionManager) (pid : String) (dOk : WSocket → Bool),
      (broadcast cm pid dOk).2 = cm ∧
      (broadcast cm pid dOk).1.1 = ((lookupScope cm pid).getD []).filter dOk ∧
      (broadcast cm pid dOk).1.2 =
        ((lookupScope cm pid).getD []).filter (fun w => ! dOk w) := by
  intro cm pid dOk
  unfold broadcast
  rcases h : lookupScope cm pid with _ | l
  · simp
  · simpa using ⟨(broadcastLoop_spec dOk l).1, (broadcastLoop_spec dOk l).2⟩

/-- C8: a stage that raises leaves a diagnostic ERROR log row, the Run
FAILED, current_task at the failing stage label and progress at the value
the previous stage last wrote (0.0, 0.25, 1.0, 0.75 for stages 1-4), and
halts the chain: the trace does not depend on the flags of later stages
and contains no commit of a later stage. -/
theorem stage_error_fails_and_halts :
    (∀ o2 o3 o4 : Bool,
      chainTrace false o2 o3 o4 = chainTrace false true true true ∧
      (chainTrace false o2 o3 o4).length = 4 ∧
      (chainTrace false o2 o3 o4).getLast?.map
          (fun d => (d.run.status, d.run.current_task, d.run.progress, d.logs.map Prod.fst))
        = some (.FAILED, some "Preprocessing", 0, ["ERROR"])) ∧
    (∀ o3 o4 : Bool,
      chainTrace true false o3 o4 = chainTrace true false true true ∧
      (chainTrace true false o3 o4).length = 7 ∧
      (chainTrace true false o3 o4).getLast?.map
          (fun d => (d.run.status, d.run.current_task, d.run.progress, d.logs.map Prod.fst))
        = some (.FAILED, some "EDA", mkRat 1 4, ["INFO", "ERROR"])) ∧
    (∀ o4 : Bool,
      chainTrace true true false o4 = chainTrace true true false true ∧
      (chainTrace true true false o4).length = 10 ∧
      (chainTrace true true false o4).getLast?.map
          (fun d => (d.run.status, d.run.current_task, d.run.progress, d.logs.map Prod.fst))
        = some (.FAILED, some "Training", 1, ["INFO", "INFO", "ERROR"])) ∧
    ((chainTrace true true true false).length = 13 ∧
      (chainTrace true true true false).getLast?.map
          (fun d => (d.run.status, d.run.current_task, d.run.progress, d.logs.map Prod.fst))
        = some (.FAILED, some "Finalizing", mkRat 3 4, ["INFO", "INFO", "INFO", "ERROR"])) := by
  refine ⟨?_, ?_, ?_, ?_⟩ <;> decide

/-- C9: the failing input for the dataset-membership check of start_eda.
In cexAnalysisDb no project_datasets row associates dataset D1 with
project P1, yet submitting an EDA Run for (P1, D1) succeeds and inserts a
Run row, because the filter of the dataset query never joins
ProjectDataset to Dataset.  (A dataset id that exists nowhere is still
rejected with 404 and no Run row, at both endpoints.) -/
theorem start_eda_unassociated_dataset_bug :
    ((cexAnalysisDb.project_datasets.all (fun pd => pd.dataset_id != "D1")) = true) ∧
    (start_eda cexAnalysisDb "U1" "P1" "D1" =
      .ok { cexAnalysisDb with runs :=
        [{ project_id := "P1", dataset_id := "D1", status := .PENDING, progress := 0 }] }) ∧
    (start_eda cexAnalysisDb "U1" "P1" "D9" = .error 404) ∧
    (start_run { projects := [{ id := "P1", user_id := "U1" }], datasets := [], runs := [] }
        "U1" "P1" "D9" = .error 404) :=
  ⟨by decide, rfl, rfl, rfl⟩

/-- C10: the registry invariant (unique scope keys, every registered
scope non-empty) holds initially and is preserved by connect and
disconnect; connect on a fresh scope creates the key with exactly the new
observer; disconnect of the last observer of a scope deletes the key; and
broadcast to an unregistered scope delivers to no observer, logs nothing,
leaves the registry unchanged and does not raise. -/
theorem registry_invariants :
    WfRegistry ⟨[]⟩ ∧
    (∀ (cm : ConnectionManager) (pid : String) (ws : WSocket),
      WfRegistry cm → WfRegistry (connect cm pid ws)) ∧
    (∀ (cm : ConnectionManager) (pid : String) (ws : WSocket),
      lookupScope cm pid = none → lookupScope (connect cm pid ws) pid = some [ws]) ∧
    (∀ (cm cm' : ConnectionManager) (pid : String) (ws : WSocket),
      WfRegistry cm → disconnect cm pid ws = some cm' → WfRegistry cm') ∧
    (∀ (cm : ConnectionManager) (pid : String) (ws : WSocket),
      lookupScope cm pid = some [ws] →
      ∀ cm', disconnect cm pid ws = some cm' → lookupScope cm' pid = none) ∧
    (∀ (cm : ConnectionManager) (pid : String) (dOk : WSocket → Bool),
      lookupScope cm pid = none → broadcast cm pid dOk = (([], []), cm)) := by
  refine ⟨⟨by simp, by simp⟩, fun cm pid ws h => connect_wf pid ws h,
    fun cm pid ws h => connect_fresh_scope ws h,
    fun cm cm' pid ws h hd => disconnect_wf h hd,
    fun cm pid ws h => disconnect_last_observer h,
    fun cm pid dOk h => ?_⟩
  unfold broadcast
  rw [h]

/-- Witness for C10: the registry operations applied at concrete states,
with every hypothesis discharged by evaluation. -/
theorem registry_invariants_witness :
    WfRegistry (connect cexManager "q" 7) ∧
    lookupScope (connect (⟨[]⟩ : ConnectionManager) "p" 1) "p" = some [1] ∧
    WfRegistry (⟨[("p", [1, 3])]⟩ : ConnectionManager) ∧
    lookupScope (⟨[]⟩ : ConnectionManager) "p" = none ∧
    broadcast (⟨[]⟩ : ConnectionManager) "p" (fun _ => true)
      = (([], []), (⟨[]⟩ : ConnectionManager)) :=
  ⟨registry_invariants.2.1 cexManager "q" 7 ⟨by decide, by decide⟩,
   registry_invariants.2.2.1 ⟨[]⟩ "p" 1 (by decide),
   registry_invariants.2.2.2.1 cexManager ⟨[("p", [1, 3])]⟩ "p" 2
     ⟨by decide, by decide⟩ (by decide),
   registry_invariants.2.2.2.2.1 ⟨[("p", [1])]⟩ "p" 1 (by decide) ⟨[]⟩ (by decide),
   registry_invariants.2.2.2.2.2 ⟨[]⟩ "p" (fun _ => true) (by decide)⟩

end UAM
